import Mathlib

/-!
Verification of the platform-driver core (`ion/agents/platform/platform_driver.py`)
and the L1 pressure transform (`ion/processes/data/transforms/ctd/ctd_L1_pressure.py`)
against their natural-language specification.

The Python classes are shallowly embedded: the driver object becomes a Lean
structure, each method a Lean function on that structure, a raised Python
exception an `Except.error` carrying the exception kind and message, and the
`log.debug` / `log.warn` calls an explicit list of log entries produced by the
operation.
-/

/-- Platform identifiers are opaque strings used as map keys. -/
abbrev PlatformId := String

/-- Timestamps cross the boundary as NTP-compatible strings. -/
abbrev Timestamp := String

/-- The driver configuration dictionary (opaque to the base class: it is only
stored, never inspected), modelled as an association list of string options. -/
abbrev DriverConfig := List (String × String)

/-- The declarative topology dictionary: each platform id maps to the list of
its sub-platform ids. -/
abbrev Topology := List (PlatformId × List PlatformId)

/-- The `agent_device_map` auxiliary dictionary (opaque to the base class). -/
abbrev DeviceMap := List (PlatformId × String)

/-- The `agent_streamconfig_map` auxiliary dictionary (opaque to the base class). -/
abbrev StreamConfigMap := List (PlatformId × String)

/-- The kinds of Python exception relevant to these two files, with the
exception message. `preconditionError`, `invalidStateError` and
`notImplementedError` are kinds named by the specification; they are included
so that statements of the form "fails with kind K" are expressible even when
the code raises a different kind. -/
inductive Exc where
  | typeError (msg : String)
  | assertionError (msg : String)
  | keyError (msg : String)
  | valueError (msg : String)
  | preconditionError (msg : String)
  | invalidStateError (msg : String)
  | notImplementedError (msg : String)
deriving DecidableEq, Repr

/-- Whether an exception is of the `PreconditionError` kind. -/
def Exc.isPreconditionError : Exc → Bool
  | .preconditionError _ => true
  | _ => false

/-- Whether an exception is of the `InvalidStateError` kind. -/
def Exc.isInvalidStateError : Exc → Bool
  | .invalidStateError _ => true
  | _ => false

/-- Whether an exception is of the `NotImplementedError` kind. -/
def Exc.isNotImplementedError : Exc → Bool
  | .notImplementedError _ => true
  | _ => false

/-- Levels of the two logging calls used by `platform_driver.py`. -/
inductive LogLevel where
  | debug
  | warn
deriving DecidableEq, Repr

/-- One log record: its level and the static part of the format string. -/
structure LogEntry where
  level : LogLevel
  msg : String
deriving DecidableEq, Repr

/-- `DriverEvent` and its two concrete subclasses, as one tagged variant type:
`AttributeValueDriverEvent(ts, platform_id, attr_id, value)` and
`AlarmDriverEvent(ts, alarm_type, alarm_instance)`. Payload values are kept as
strings; the driver never inspects them. -/
inductive DriverEvent where
  | attributeValue (ts : Timestamp) (platform_id : PlatformId) (attr_id : String) (value : String)
  | alarm (ts : Timestamp) (alarm_type : String) (alarm_instance : String)
deriving DecidableEq, Repr

/-- An event listener callback, as registered by `set_event_listener`. Python
callbacks may raise; this is modelled by an `Except` result. -/
abbrev Listener := DriverEvent → Except Exc Unit

/-- Modelled from the spec: the resolved `NNode` tree is not part of this
excerpt (only `self._nnode.subplatforms.keys()` is used by the code under
verification). Following the data model of the spec, a `PlatformNode` is the
resolved runtime tree node for one platform id, with a mapping from
sub-platform id to child node. -/
inductive NNode where
  | node (platform_id : PlatformId) (subplatforms : List (PlatformId × NNode))

/-- The `subplatforms` dictionary of a resolved node. -/
def NNode.subplatforms : NNode → List (PlatformId × NNode)
  | .node _ sp => sp

/-- `subplatforms.keys()`: the direct child ids of a node, in dictionary order. -/
def NNode.subplatformIds (n : NNode) : List PlatformId :=
  n.subplatforms.map Prod.fst

/-- The instance state of `PlatformDriver`, one field per attribute assigned in
`__init__`. -/
structure PlatformDriver where
  _platform_id : PlatformId
  _driver_config : DriverConfig
  _parent_platform_id : Option PlatformId
  _send_event : Option Listener
  _topology : Option Topology
  _agent_device_map : Option DeviceMap
  _agent_streamconfig_map : Option StreamConfigMap
  _nnode : Option NNode

/-- `PlatformDriver.__init__(platform_id, driver_config, parent_platform_id)`:
stores the three construction arguments, initialises `_send_event`,
`_topology`, `_agent_device_map`, `_agent_streamconfig_map` and `_nnode` to
`None`, and logs one debug line. -/
def PlatformDriver.init (platform_id : PlatformId) (driver_config : DriverConfig)
    (parent_platform_id : Option PlatformId) : PlatformDriver × List LogEntry :=
  (⟨platform_id, driver_config, parent_platform_id, none, none, none, none, none⟩,
   [⟨.debug, "PlatformDriver constructor called"⟩])

/-- `set_topology(topology, agent_device_map, agent_streamconfig_map)`: logs
two debug lines and unconditionally assigns the three fields. The method has
no state guard of any kind. -/
def PlatformDriver.set_topology (st : PlatformDriver) (topology : Topology)
    (agent_device_map : Option DeviceMap) (agent_streamconfig_map : Option StreamConfigMap) :
    PlatformDriver × List LogEntry :=
  ({ st with
      _topology := some topology
      _agent_device_map := agent_device_map
      _agent_streamconfig_map := agent_streamconfig_map },
   [⟨.debug, "set_topology: topology"⟩, ⟨.debug, "set_topology: agent_device_map"⟩])

/-- `set_event_listener(evt_recv)`: assigns `self._send_event = evt_recv`. -/
def PlatformDriver.set_event_listener (st : PlatformDriver) (evt_recv : Listener) :
    PlatformDriver :=
  { st with _send_event := some evt_recv }

/-- In Python, `NotImplemented` is a plain non-callable singleton (it is not
the exception class `NotImplementedError`). The statement `raise
NotImplemented()` therefore evaluates the call `NotImplemented()` first, which
raises `TypeError: 'NotImplementedType' object is not callable`; the `raise`
itself is never reached. Every "to be implemented by subclass" method body in
`platform_driver.py` is exactly this statement. -/
def raiseNotImplementedCalled {α : Type} : Except Exc α :=
  .error (.typeError "NotImplementedType object is not callable")

/-- `ping()`: body is `raise NotImplemented()`. -/
def PlatformDriver.ping (_st : PlatformDriver) : Except Exc String :=
  raiseNotImplementedCalled

/-- `go_active()`: body is `raise NotImplemented()`. -/
def PlatformDriver.go_active (_st : PlatformDriver) : Except Exc Unit :=
  raiseNotImplementedCalled

/-- `get_metadata()`: body is `raise NotImplemented()`. -/
def PlatformDriver.get_metadata (_st : PlatformDriver) : Except Exc String :=
  raiseNotImplementedCalled

/-- `get_attribute_values(attr_names, from_time)`: body is `raise NotImplemented()`. -/
def PlatformDriver.get_attribute_values (_st : PlatformDriver)
    (_attr_names : List String) (_from_time : Timestamp) :
    Except Exc (List (String × List (String × Timestamp))) :=
  raiseNotImplementedCalled

/-- `set_attribute_values(attrs)`: body is `raise NotImplemented()`. -/
def PlatformDriver.set_attribute_values (_st : PlatformDriver)
    (_attrs : List (String × String)) :
    Except Exc (List (PlatformId × List (String × List (String × Timestamp)))) :=
  raiseNotImplementedCalled

/-- `get_ports()`: body is `raise NotImplemented()`. -/
def PlatformDriver.get_ports (_st : PlatformDriver) : Except Exc String :=
  raiseNotImplementedCalled

/-- `set_up_port(port_id, attributes)`: body is `raise NotImplemented()`. -/
def PlatformDriver.set_up_port (_st : PlatformDriver) (_port_id : String)
    (_attributes : List (String × String)) : Except Exc String :=
  raiseNotImplementedCalled

/-- `get_subplatform_ids()`: `assert self._nnode is not None, "go_active should
have been called first"` followed by `return self._nnode.subplatforms.keys()`.
A failed Python `assert` raises `AssertionError` with the given message. -/
def PlatformDriver.get_subplatform_ids (st : PlatformDriver) :
    Except Exc (List PlatformId) :=
  match st._nnode with
  | none => .error (.assertionError "go_active should have been called first")
  | some n => .ok n.subplatformIds

/-- `start_resource_monitoring()`: body is `raise NotImplemented()`. -/
def PlatformDriver.start_resource_monitoring (_st : PlatformDriver) : Except Exc Unit :=
  raiseNotImplementedCalled

/-- The result of a method call that is observed together with the driver
methods it invokes on `self`: `subcalls` lists those method names in call
order. -/
structure Traced (α : Type) where
  subcalls : List String
  result : Except Exc α

/-- `stop_resource_monitoring()`: body is `raise NotImplemented()`; it invokes
no other driver method. -/
def PlatformDriver.stop_resource_monitoring (_st : PlatformDriver) : Traced Unit :=
  ⟨[], raiseNotImplementedCalled⟩

/-- `start_alarm_dispatch(params)`: body is `raise NotImplemented()`. -/
def PlatformDriver.start_alarm_dispatch (_st : PlatformDriver) (_params : String) :
    Except Exc Unit :=
  raiseNotImplementedCalled

/-- `stop_alarm_dispatch()`: body is `raise NotImplemented()`; it invokes no
other driver method. -/
def PlatformDriver.stop_alarm_dispatch (_st : PlatformDriver) : Traced Unit :=
  ⟨[], raiseNotImplementedCalled⟩

/-- `destroy()`: body is the single statement `self.stop_resource_monitoring()`.
Its outcome is that call's outcome; `stop_alarm_dispatch` is not invoked. -/
def PlatformDriver.destroy (st : PlatformDriver) : Traced Unit :=
  let r := st.stop_resource_monitoring
  ⟨"stop_resource_monitoring" :: r.subcalls, r.result⟩

/-- What one call to `_notify_driver_event` produces: the log lines, the list
of events handed to the listener callback (empty or a singleton), and the
call's outcome. -/
structure NotifyResult where
  logs : List LogEntry
  delivered : List DriverEvent
  outcome : Except Exc Unit

/-- `_notify_driver_event(driver_event)`: logs a debug line, asserts the event
is a `DriverEvent` (always true here, by typing), then — with no exception
handler anywhere in the body — calls `self._send_event(driver_event)` when the
listener is set, and otherwise logs a warning and returns normally. -/
def PlatformDriver._notify_driver_event (st : PlatformDriver) (driver_event : DriverEvent) :
    NotifyResult :=
  let dbg : LogEntry := ⟨.debug, "platform driver: notify driver_event"⟩
  match st._send_event with
  | some cb => ⟨[dbg], [driver_event], cb driver_event⟩
  | none =>
      ⟨[dbg, ⟨.warn, "self._send_event not set to notify driver_event"⟩], [], .ok ()⟩

/-- Modelled from the spec: the node tree built from a declarative topology.
The concrete resolution code lives in subclasses outside this excerpt; per the
spec, when a topology was set the tree "is built directly from it": each node
takes as children the ids the topology declares for it. Recursion is bounded
by fuel, enough for any topology with no cycles and unique ids. -/
def buildNNode (fuel : Nat) (topology : Topology) (pid : PlatformId) : NNode :=
  match fuel with
  | 0 => .node pid []
  | fuel + 1 =>
      .node pid (((topology.lookup pid).getD []).map fun c => (c, buildNNode fuel topology c))

/-- Modelled from the spec: topology resolution for the whole declared tree,
rooted at the driver's own platform id. -/
def resolveTopology (root : PlatformId) (topology : Topology) : NNode :=
  buildNNode (topology.length + 1) topology root

/-- Modelled from the spec: `go_active()` as a subclass implements it —
"performs topology resolution: if a topology was set, the node tree is built
directly from it" and assigns the result to `self._nnode` (the discovery path
used when no topology was set is outside this excerpt and is not modelled). -/
def PlatformDriver.go_active_modelled (st : PlatformDriver) : PlatformDriver :=
  match st._topology with
  | some t => { st with _nnode := some (resolveTopology st._platform_id t) }
  | none => st

/-- The driver operations named by the frame claim, as one syntactic type so a
whole operation sequence can be folded over the driver state. -/
inductive DriverOp where
  | setTopology (t : Topology) (adm : Option DeviceMap) (ascm : Option StreamConfigMap)
  | setEventListener (cb : Listener)
  | getSubplatformIds
  | destroyOp
  | notify (ev : DriverEvent)

/-- The driver state after one operation. `set_topology` and
`set_event_listener` are the only two of these methods whose bodies assign an
instance field; `get_subplatform_ids`, `destroy` and `_notify_driver_event`
only read the state (any exception they raise occurs with no prior
assignment), so the state is unchanged. -/
def stateStep (st : PlatformDriver) (op : DriverOp) : PlatformDriver :=
  match op with
  | .setTopology t adm ascm => (st.set_topology t adm ascm).1
  | .setEventListener cb => st.set_event_listener cb
  | .getSubplatformIds => st
  | .destroyOp => st
  | .notify _ => st

/-!
The L1 pressure transform. The record dictionary of a granule is embedded as
an association list from field name to a sequence of sample values; sample
values are opaque to the transform (it copies them without arithmetic) and are
embedded as integers.
-/

/-- A sensor sample value. The transform performs no arithmetic on samples, so
their numeric representation is irrelevant to its behavior. -/
abbrev SampleVal := Int

/-- A record dictionary: field name to value sequence. -/
abbrev RDT := List (String × List SampleVal)

/-- `get_safe(rdt, field)`: the field's value when present, else `None`. -/
def get_safe (rdt : RDT) (field : String) : Option (List SampleVal) :=
  rdt.lookup field

/-- The granule built by `CTDL1PressureTransform.execute` via `build_granule`:
its data-producer id and the five fields assigned to `root_rdt`. The
`pressure` field is always a real sequence (the loop indexed it); the other
four are whatever `get_safe` returned, possibly `None`. -/
structure Granule where
  data_producer_id : String
  pressure : List SampleVal
  time : Option (List SampleVal)
  lat : Option (List SampleVal)
  lon : Option (List SampleVal)
  depth : Option (List SampleVal)
deriving DecidableEq, Repr

/-- The scaling loop of `execute`: `scaled_pressure = pressure` aliases the
input list, then `for i in xrange(len(pressure)): scaled_pressure[i] =
(pressure[i])` reads index `i` of that same list and writes it back. The one
aliased list is the fold accumulator, read and written through it. -/
def scalePressureLoop (p : List SampleVal) : List SampleVal :=
  (List.range p.length).foldl (fun acc i => acc.set i (acc.getD i 0)) p

/-- `CTDL1PressureTransform.execute(granule)`, on the record dictionary of the
input granule. In order: the five `get_safe` reads; the
`PointSupplementConstructor` call, whose `self.streams['output']` lookup
raises `KeyError` when the transform has no output stream; `len(pressure)`,
which raises `TypeError` when `pressure` is `None`; the scaling loop; and the
`build_granule` call on the populated `root_rdt` (the code after the first
`return` is unreachable). -/
def executeL1Pressure (streams : List (String × String)) (rdt : RDT) :
    Except Exc Granule :=
  let pressure := get_safe rdt "pressure"
  let longitude := get_safe rdt "lon"
  let latitude := get_safe rdt "lat"
  let time := get_safe rdt "time"
  let depth := get_safe rdt "depth"
  match streams.lookup "output" with
  | none => .error (.keyError "output")
  | some _ =>
      match pressure with
      | none => .error (.typeError "object of type NoneType has no len")
      | some p =>
          let scaled_pressure := scalePressureLoop p
          .ok ⟨"ctd_L1_pressure", scaled_pressure, time, latitude, longitude, depth⟩

/-!
Concrete fixtures used by witnesses and counterexamples. `demoDriver` is the
driver of the spec's scenario right after construction; `scenarioDriver` is
the same driver after `set_topology` and the (spec-modelled) activation.
-/

/-- The scenario driver of the spec, freshly constructed. -/
def demoDriver : PlatformDriver :=
  (PlatformDriver.init "P1" [("endpoint", "mock://x"), ("timeout_ms", "500")] none).1

/-- The scenario topology of the spec. -/
def scenarioTopo : Topology := [("P1", ["P1a", "P1b"])]

/-- A second topology, used to exhibit overwriting. -/
def topoB : Topology := [("P1", ["P1c"])]

/-- The scenario driver after `set_topology` and activation. -/
def scenarioDriver : PlatformDriver :=
  ((demoDriver.set_topology scenarioTopo none none).1).go_active_modelled

/-- A listener callback that returns normally on every event. -/
def listenerA : Listener := fun _ => .ok ()

/-- A listener callback that raises on every event. -/
def failingListener : Listener := fun _ => .error (.valueError "listener failure")

/-- `demoDriver` with the well-behaved listener registered. -/
def okDriver : PlatformDriver := demoDriver.set_event_listener listenerA

/-- `demoDriver` with the raising listener registered. -/
def failingDriver : PlatformDriver := demoDriver.set_event_listener failingListener

/-- A concrete attribute-value sample event. -/
def demoEvent : DriverEvent := .attributeValue "3600000000.0" "P1" "temp" "42"

/-- A stream configuration carrying an output stream. -/
def demoStreams : List (String × String) := [("output", "s1")]

/-- A concrete input record dictionary for the transform. -/
def demoRDT : RDT :=
  [("pressure", [10, 20, 30]), ("time", [1, 2, 3]), ("lat", [7]), ("lon", [8]), ("depth", [9])]

/-!
Helper lemmas.
-/

/-- Writing back the value just read leaves a list unchanged (out-of-range
writes are already the identity). -/
theorem list_set_getD_self (l : List SampleVal) (i : Nat) : l.set i (l.getD i 0) = l := by
  induction l generalizing i with
  | nil => simp
  | cons a t ih =>
    cases i with
    | zero => rfl
    | succ n => exact congrArg (List.cons a) (ih n)

/-- Folding read-then-write-back steps over any index list is the identity. -/
theorem foldl_set_getD_id (idxs : List Nat) (acc : List SampleVal) :
    idxs.foldl (fun a i => a.set i (a.getD i 0)) acc = acc := by
  induction idxs generalizing acc with
  | nil => rfl
  | cons j rest ih =>
    rw [List.foldl_cons, list_set_getD_self]
    exact ih acc

/-- The scaling loop of the transform is the identity on the pressure sequence. -/
theorem scalePressureLoop_id (p : List SampleVal) : scalePressureLoop p = p :=
  foldl_set_getD_id _ p

/-- One driver operation never changes the three construction fields. -/
theorem stateStep_frame (st : PlatformDriver) (op : DriverOp) :
    (stateStep st op)._platform_id = st._platform_id ∧
    (stateStep st op)._driver_config = st._driver_config ∧
    (stateStep st op)._parent_platform_id = st._parent_platform_id := by
  cases op <;>
    simp [stateStep, PlatformDriver.set_topology, PlatformDriver.set_event_listener]

/-- A whole operation sequence never changes the three construction fields. -/
theorem foldl_stateStep_frame (ops : List DriverOp) (st : PlatformDriver) :
    (ops.foldl stateStep st)._platform_id = st._platform_id ∧
    (ops.foldl stateStep st)._driver_config = st._driver_config ∧
    (ops.foldl stateStep st)._parent_platform_id = st._parent_platform_id := by
  induction ops generalizing st with
  | nil => exact ⟨rfl, rfl, rfl⟩
  | cons op rest ih =>
    rw [List.foldl_cons]
    obtain ⟨h1, h2, h3⟩ := ih (stateStep st op)
    obtain ⟨g1, g2, g3⟩ := stateStep_frame st op
    exact ⟨h1.trans g1, h2.trans g2, h3.trans g3⟩



/-!
The claims.
-/

/-- C1 (amended): for every driver on which activation has not completed (node
not resolved), `get_subplatform_ids()` fails — but with `AssertionError`
("go_active should have been called first"), raised by the `assert` statement,
not with the `PreconditionError` the claim names. -/
theorem get_subplatform_ids_before_activation_fails (st : PlatformDriver)
    (h : st._nnode = none) :
    st.get_subplatform_ids =
      .error (.assertionError "go_active should have been called first") := by
  simp [PlatformDriver.get_subplatform_ids, h]

/-- C1 witness: the freshly constructed scenario driver. -/
theorem get_subplatform_ids_before_activation_witness :
    demoDriver.get_subplatform_ids =
      .error (.assertionError "go_active should have been called first") :=
  get_subplatform_ids_before_activation_fails demoDriver rfl

/-- C1 counterexample: on a freshly constructed driver `get_subplatform_ids()`
raises `AssertionError`, which is not of the `PreconditionError` kind the
claim states. -/
theorem get_subplatform_ids_precondition_counterexample :
    demoDriver.get_subplatform_ids =
      .error (.assertionError "go_active should have been called first") ∧
    (Exc.assertionError "go_active should have been called first").isPreconditionError
      = false :=
  ⟨get_subplatform_ids_before_activation_witness, rfl⟩

/-- C2: for every driver and event, `_notify_driver_event` delivers the event
synchronously to the registered listener callback when one is registered (the
call outcome is exactly the callback's outcome on that event); when none is
registered the event is dropped, exactly one warning diagnostic is recorded,
and the call returns normally. -/
theorem notify_delivery_and_drop (st : PlatformDriver) (ev : DriverEvent) :
    (∀ cb, st._send_event = some cb →
        (st._notify_driver_event ev).delivered = [ev] ∧
        (st._notify_driver_event ev).outcome = cb ev) ∧
    (st._send_event = none →
        (st._notify_driver_event ev).delivered = [] ∧
        ((st._notify_driver_event ev).logs.countP
          fun e => e.level == LogLevel.warn) = 1 ∧
        (st._notify_driver_event ev).outcome = .ok ()) := by
  constructor
  · intro cb hcb
    unfold PlatformDriver._notify_driver_event
    rw [hcb]
    exact ⟨rfl, rfl⟩
  · intro hnone
    unfold PlatformDriver._notify_driver_event
    rw [hnone]
    exact ⟨rfl, rfl, rfl⟩

/-- C2 witness: one driver with a registered listener (delivery), one without
(drop with one warning and normal return). -/
theorem notify_delivery_and_drop_witness :
    ((okDriver._notify_driver_event demoEvent).delivered = [demoEvent] ∧
      (okDriver._notify_driver_event demoEvent).outcome = listenerA demoEvent) ∧
    ((demoDriver._notify_driver_event demoEvent).delivered = [] ∧
      ((demoDriver._notify_driver_event demoEvent).logs.countP
        fun e => e.level == LogLevel.warn) = 1 ∧
      (demoDriver._notify_driver_event demoEvent).outcome = .ok ()) :=
  ⟨(notify_delivery_and_drop okDriver demoEvent).1 listenerA rfl,
   (notify_delivery_and_drop demoDriver demoEvent).2 rfl⟩

/-- C3 (amended): `destroy()` invokes exactly `stop_resource_monitoring` and
never `stop_alarm_dispatch`, and it propagates that call's outcome — on the
base class `stop_resource_monitoring` raises `TypeError`, so `destroy()` also
raises rather than never failing. -/
theorem destroy_only_stops_resource_monitoring (st : PlatformDriver) :
    st.destroy.subcalls = ["stop_resource_monitoring"] ∧
    st.destroy.result = st.stop_resource_monitoring.result ∧
    st.destroy.result =
      .error (.typeError "NotImplementedType object is not callable") :=
  ⟨rfl, rfl, rfl⟩

/-- C3 counterexample: on a concrete driver `destroy()` fails (with
`TypeError`), contradicting "never fails", and `stop_alarm_dispatch` is not
among the methods it invokes, contradicting "forces stop_alarm_dispatch". -/
theorem destroy_counterexample :
    demoDriver.destroy.result =
      .error (.typeError "NotImplementedType object is not callable") ∧
    demoDriver.destroy.subcalls = ["stop_resource_monitoring"] ∧
    "stop_alarm_dispatch" ∉ demoDriver.destroy.subcalls := by
  refine ⟨rfl, rfl, ?_⟩
  decide

/-- C4 (amended): an exception raised by the registered listener callback is
not caught at the notify boundary: `_notify_driver_event` has no exception
handler, so the callback's exception propagates unchanged to the caller of
the notify operation. -/
theorem notify_propagates_listener_exception (st : PlatformDriver) (cb : Listener)
    (ev : DriverEvent) (e : Exc) (hcb : st._send_event = some cb)
    (he : cb ev = .error e) :
    (st._notify_driver_event ev).outcome = .error e := by
  simp [PlatformDriver._notify_driver_event, hcb, he]

/-- C4 witness: a driver with a raising listener, on a concrete event. -/
theorem notify_propagates_listener_exception_witness :
    (failingDriver._notify_driver_event demoEvent).outcome =
      .error (.valueError "listener failure") :=
  notify_propagates_listener_exception failingDriver failingListener demoEvent
    (.valueError "listener failure") rfl rfl

/-- C4 counterexample: with a listener that raises `ValueError`, the notify
call's outcome is that very exception — it reaches the caller instead of
being caught and logged at the boundary. -/
theorem notify_catch_counterexample :
    (failingDriver._notify_driver_event demoEvent).outcome =
      .error (.valueError "listener failure") ∧
    (Exc.valueError "listener failure").isInvalidStateError = false :=
  ⟨rfl, rfl⟩

/-- C5 (amended): `set_topology` is entirely unguarded: it may be called any
number of times at any point of the lifecycle, always returns normally,
overwrites the topology and the two auxiliary maps with its arguments, and
leaves every other field (the resolved node included) unchanged. -/
theorem set_topology_unguarded_overwrite (st : PlatformDriver) (t : Topology)
    (adm : Option DeviceMap) (ascm : Option StreamConfigMap) :
    (st.set_topology t adm ascm).1._topology = some t ∧
    (st.set_topology t adm ascm).1._agent_device_map = adm ∧
    (st.set_topology t adm ascm).1._agent_streamconfig_map = ascm ∧
    (st.set_topology t adm ascm).1._nnode = st._nnode ∧
    (st.set_topology t adm ascm).1._send_event = st._send_event ∧
    (st.set_topology t adm ascm).1._platform_id = st._platform_id :=
  ⟨rfl, rfl, rfl, rfl, rfl, rfl⟩

/-- C5 counterexample: on the activated scenario driver (which had already set
a topology), a further `set_topology` call completes and overwrites the stored
topology with the new one — it neither fails with `InvalidStateError` nor
leaves the prior state unchanged. -/
theorem set_topology_after_activation_counterexample :
    ((scenarioDriver.set_topology topoB none none).1)._topology = some topoB ∧
    some topoB ≠ scenarioDriver._topology := by
  refine ⟨rfl, ?_⟩
  decide

/-- C6: for every driver whose activation has completed with resolved root
node `n`, `get_subplatform_ids()` returns exactly the direct child ids of `n`
(the keys of its `subplatforms` dictionary). -/
theorem get_subplatform_ids_returns_child_ids (st : PlatformDriver) (n : NNode)
    (h : st._nnode = some n) :
    st.get_subplatform_ids = .ok n.subplatformIds := by
  simp [PlatformDriver.get_subplatform_ids, h]

/-- C6 witness: the spec's scenario — `set_topology({"P1": ["P1a","P1b"]})`
then activation — after which `get_subplatform_ids()` returns `["P1a","P1b"]`. -/
theorem get_subplatform_ids_scenario_witness :
    scenarioDriver.get_subplatform_ids = .ok ["P1a", "P1b"] := by
  have h := get_subplatform_ids_returns_child_ids scenarioDriver
    (resolveTopology "P1" scenarioTopo) rfl
  exact h

/-- C7: after any nonempty sequence of `set_event_listener` calls, the
registered delivery target is exactly the callback of the last call; the
`_send_event` slot holds at most one listener at any time. -/
theorem set_event_listener_last_write_wins (st : PlatformDriver)
    (cbs : List Listener) (h : cbs ≠ []) :
    (cbs.foldl PlatformDriver.set_event_listener st)._send_event =
      some (cbs.getLast h) := by
  induction cbs generalizing st with
  | nil => exact absurd rfl h
  | cons a t ih =>
    cases t with
    | nil => rfl
    | cons b u =>
      rw [List.foldl_cons, List.getLast_cons (List.cons_ne_nil b u)]
      exact ih (st.set_event_listener a) (List.cons_ne_nil b u)

/-- C7 witness: registering the well-behaved listener and then the raising one
leaves the raising one as the single delivery target. -/
theorem set_event_listener_last_write_wins_witness :
    ([listenerA, failingListener].foldl PlatformDriver.set_event_listener
        demoDriver)._send_event = some failingListener :=
  set_event_listener_last_write_wins demoDriver [listenerA, failingListener]
    (List.cons_ne_nil _ _)

/-- C8: the platform id, the parent platform id and the driver configuration
are fixed at construction: after any sequence of `set_topology`,
`set_event_listener`, `get_subplatform_ids`, `destroy` and notify operations,
the three fields still hold the constructor's arguments. -/
theorem constructor_fields_immutable_under_ops (pid : PlatformId)
    (cfg : DriverConfig) (par : Option PlatformId) (ops : List DriverOp) :
    (ops.foldl stateStep (PlatformDriver.init pid cfg par).1)._platform_id = pid ∧
    (ops.foldl stateStep (PlatformDriver.init pid cfg par).1)._driver_config = cfg ∧
    (ops.foldl stateStep (PlatformDriver.init pid cfg par).1)._parent_platform_id
      = par := by
  obtain ⟨h1, h2, h3⟩ :=
    foldl_stateStep_frame ops (PlatformDriver.init pid cfg par).1
  exact ⟨h1, h2, h3⟩

/-- C9: on the base `PlatformDriver`, every abstract operation raises for
every input, and what is raised is the `TypeError` produced by calling the
non-callable `NotImplemented` singleton — not `NotImplementedError` — and
`destroy()`, which calls `stop_resource_monitoring()`, therefore raises too. -/
theorem base_methods_raise_typeError (st : PlatformDriver)
    (attr_names : List String) (from_time : Timestamp)
    (attrs : List (String × String)) (port_id : String)
    (port_attributes : List (String × String)) (params : String) :
    st.ping = .error (.typeError "NotImplementedType object is not callable") ∧
    st.go_active = .error (.typeError "NotImplementedType object is not callable") ∧
    st.get_metadata = .error (.typeError "NotImplementedType object is not callable") ∧
    st.get_attribute_values attr_names from_time =
      .error (.typeError "NotImplementedType object is not callable") ∧
    st.set_attribute_values attrs =
      .error (.typeError "NotImplementedType object is not callable") ∧
    st.get_ports = .error (.typeError "NotImplementedType object is not callable") ∧
    st.set_up_port port_id port_attributes =
      .error (.typeError "NotImplementedType object is not callable") ∧
    st.start_resource_monitoring =
      .error (.typeError "NotImplementedType object is not callable") ∧
    st.stop_resource_monitoring.result =
      .error (.typeError "NotImplementedType object is not callable") ∧
    st.start_alarm_dispatch params =
      .error (.typeError "NotImplementedType object is not callable") ∧
    st.stop_alarm_dispatch.result =
      .error (.typeError "NotImplementedType object is not callable") ∧
    st.destroy.result =
      .error (.typeError "NotImplementedType object is not callable") ∧
    (Exc.typeError "NotImplementedType object is not callable").isNotImplementedError
      = false :=
  ⟨rfl, rfl, rfl, rfl, rfl, rfl, rfl, rfl, rfl, rfl, rfl, rfl, rfl⟩

/-- C10: for every input record dictionary that contains a pressure sequence
(and a configured output stream), `execute` returns a granule whose pressure
field equals the input pressure values elementwise (the scaling step is the
identity) and whose time, lat, lon and depth fields equal the corresponding
input fields. -/
theorem executeL1Pressure_identity_scaling (streams : List (String × String))
    (rdt : RDT) (sid : String) (p : List SampleVal)
    (hs : streams.lookup "output" = some sid)
    (hp : get_safe rdt "pressure" = some p) :
    executeL1Pressure streams rdt =
      .ok ⟨"ctd_L1_pressure", p, get_safe rdt "time", get_safe rdt "lat",
        get_safe rdt "lon", get_safe rdt "depth"⟩ := by
  simp [executeL1Pressure, hs, hp, scalePressureLoop_id]

/-- C10 witness: a concrete record dictionary with a three-sample pressure
sequence passes through unchanged together with its coordinate fields. -/
theorem executeL1Pressure_identity_witness :
    executeL1Pressure demoStreams demoRDT =
      .ok ⟨"ctd_L1_pressure", [10, 20, 30], some [1, 2, 3], some [7], some [8],
        some [9]⟩ := by
  have h := executeL1Pressure_identity_scaling demoStreams demoRDT "s1"
    [10, 20, 30] rfl rfl
  exact h
